import Mathlib

/-!
Shallow embedding of the slack-to-glue webhook relay (src/app.py).

The embedding models the decoded JSON payload as an inductive `Json` tree,
Python's dict/str/list primitives as explicit partial functions returning
`Except PyErr`, the two `re.sub` passes of `_convert_slack_to_markdown` as
deterministic left-to-right scanners, and `process_webhook` / `handle_webhook`
as pure functions parameterised by the outcomes of the two outbound HTTP
calls.  Outbound calls are recorded in an explicit trace (`OutboundCall`).
-/

/-- A decoded JSON value, as produced by `json.loads` / `request.get_json`.
Numbers are modelled as integers (no claim involves floats). -/
inductive Json where
  | null
  | bool (b : Bool)
  | num (n : Int)
  | str (s : String)
  | arr (elems : List Json)
  | obj (fields : List (String × Json))

mutual

/-- Structural equality of decoded JSON values, modelling Python `==` on the
decoded structures (the `1 == True` coercion nuance is irrelevant here: the
only use compares a value with itself). -/
def Json.beq : Json → Json → Bool
  | .null, .null => true
  | .bool a, .bool b => a == b
  | .num a, .num b => a == b
  | .str a, .str b => a == b
  | .arr a, .arr b => Json.beqList a b
  | .obj a, .obj b => Json.beqFields a b
  | _, _ => false

/-- Elementwise equality of JSON lists. -/
def Json.beqList : List Json → List Json → Bool
  | [], [] => true
  | a :: as, b :: bs => Json.beq a b && Json.beqList as bs
  | _, _ => false

/-- Entrywise equality of JSON object fields. -/
def Json.beqFields : List (String × Json) → List (String × Json) → Bool
  | [], [] => true
  | (k, v) :: as, (l, w) :: bs => k == l && Json.beq v w && Json.beqFields as bs
  | _, _ => false

end

/-- Python exception kinds that the modelled code can raise. -/
inductive PyErr where
  | attributeError
  | typeError
  | keyError
  | indexError
deriving DecidableEq

/-- Field lookup in a decoded JSON object.  Python's `json.loads` keeps the
last value for a duplicated key, so the last binding wins. -/
def lookupField : List (String × Json) → String → Option Json
  | [], _ => none
  | (k, v) :: rest, key =>
    match lookupField rest key with
    | some w => some w
    | none => if k = key then some v else none

/-- Python truthiness (`if payload:`, `if attachments:`, ...) of a decoded
JSON value. -/
def Json.pyTruthy : Json → Bool
  | .null => false
  | .bool b => b
  | .num n => decide (n ≠ 0)
  | .str s => decide (s ≠ "")
  | .arr xs => !xs.isEmpty
  | .obj fs => !fs.isEmpty

/-- `d.get(key, default)`: succeeds only on a dict (`AttributeError` on any
other value, which has no `.get`). -/
def Json.pyGet (j : Json) (key : String) (dflt : Json) : Except PyErr Json :=
  match j with
  | .obj fields => .ok ((lookupField fields key).getD dflt)
  | _ => .error .attributeError

/-- Coerce to a Python `str`, raising `e` otherwise (`AttributeError` for a
missing string method, `TypeError` when `re.sub` receives a non-string). -/
def Json.asStr (e : PyErr) : Json → Except PyErr String
  | .str s => .ok s
  | _ => .error e

/-- `len(x)` for sized values; `TypeError` otherwise. -/
def Json.pyLen : Json → Except PyErr Nat
  | .str s => .ok s.length
  | .arr xs => .ok xs.length
  | .obj fs => .ok fs.length
  | _ => .error .typeError

/-- `x[0]`: first element of a list, one-character string of a string,
`KeyError` on a dict (JSON object keys are strings, never the int `0`),
`TypeError` otherwise. -/
def Json.pyIndex0 : Json → Except PyErr Json
  | .arr (x :: _) => .ok x
  | .arr [] => .error .indexError
  | .str s =>
    match s.data with
    | c :: _ => .ok (.str (String.mk [c]))
    | [] => .error .indexError
  | .obj _ => .error .keyError
  | _ => .error .typeError

/-- `'key' in payload`.  Only the dict case is reachable in
`process_webhook` (a successful `.get` call has already established that the
payload is a dict). -/
def Json.pyContainsKey (j : Json) (key : String) : Except PyErr Bool :=
  match j with
  | .obj fields => .ok ((lookupField fields key).isSome)
  | _ => .error .typeError

/-- `payload['key']`: dict item access, `KeyError` when absent. -/
def Json.pyGetItem (j : Json) (key : String) : Except PyErr Json :=
  match j with
  | .obj fields =>
    match lookupField fields key with
    | some v => .ok v
    | none => .error .keyError
  | _ => .error .typeError

/-- The whitespace set stripped by Python's `str.strip()`. -/
def isPySpace (c : Char) : Bool :=
  c = ' ' || c = '\t' || c = '\n' || c = '\r' || c = '\x0b' || c = '\x0c'

/-- `s.strip()`: drop whitespace from both ends. -/
def pyStrip (s : String) : String :=
  String.mk (((s.data.dropWhile isPySpace).reverse.dropWhile isPySpace).reverse)

/-- `s.lstrip('#')`: drop every leading `#`. -/
def lstripHash (s : String) : String :=
  String.mk (s.data.dropWhile (fun c => c = '#'))

/-- Python `repr` of a string (used by `str(payload)`).  Python prefers
single quotes and switches to double quotes when the string contains a
single quote but no double quote; non-printable characters other than the
common escapes are not modelled (no claim exercises them). -/
def pyReprStr (s : String) : String :=
  let useDouble := s.data.contains '\'' && !(s.data.contains '"')
  let q : Char := if useDouble then '"' else '\''
  let esc := fun (c : Char) =>
    if c = '\\' then "\\\\"
    else if c = q then String.mk ['\\', q]
    else if c = '\n' then "\\n"
    else if c = '\t' then "\\t"
    else if c = '\r' then "\\r"
    else String.mk [c]
  String.mk [q] ++ String.join (s.data.map esc) ++ String.mk [q]

mutual

/-- `str(payload)` on a decoded JSON value: Python `repr` of the
corresponding dict/list/str/int/bool/None structure. -/
def pyRepr : Json → String
  | .null => "None"
  | .bool true => "True"
  | .bool false => "False"
  | .num n => toString n
  | .str s => pyReprStr s
  | .arr xs => "[" ++ pyReprList xs ++ "]"
  | .obj fs => "\x7b" ++ pyReprFields fs ++ "\x7d"

/-- Comma-separated reprs of list elements. -/
def pyReprList : List Json → String
  | [] => ""
  | [x] => pyRepr x
  | x :: xs => pyRepr x ++ ", " ++ pyReprList xs

/-- Comma-separated `key: value` reprs of dict entries. -/
def pyReprFields : List (String × Json) → String
  | [] => ""
  | [(k, v)] => pyReprStr k ++ ": " ++ pyRepr v
  | (k, v) :: fs => pyReprStr k ++ ": " ++ pyRepr v ++ ", " ++ pyReprFields fs

end

/-! ## The markup normalizer (`_convert_slack_to_markdown`, lines 63-73)

Pass 1 is `re.sub` with pattern `<([^|>]+)\|([^>]+)>` and replacement
`[\2](\1)`; pass 2 is `re.sub` with pattern `<(https?://[^>]+)>` and
replacement `\1`.  Both character classes exclude their own delimiter, so
the regex engine's greedy matching is equivalent to a deterministic
take-until scan and `re.sub`'s global pass is a left-to-right scan that
advances one character on failure and past the match on success. -/

/-- Attempt `<([^|>]+)\|([^>]+)>` at the head of the character list.
Returns `(URL, LABEL, rest after the closing >)` on success. -/
def matchLink : List Char → Option (List Char × List Char × List Char)
  | '<' :: rest =>
    let url := rest.takeWhile (fun c => c != '|' && c != '>')
    match url, rest.dropWhile (fun c => c != '|' && c != '>') with
    | _ :: _, '|' :: rest2 =>
      let label := rest2.takeWhile (fun c => c != '>')
      match label, rest2.dropWhile (fun c => c != '>') with
      | _ :: _, '>' :: rest4 => some (url, label, rest4)
      | _, _ => none
    | _, _ => none
  | _ => none

/-- One fuel unit per scan step; a match consumes at least one character, so
fuel equal to the input length always suffices (see `subLinkGoF_congr`). -/
def subLinkGoF : Nat → List Char → List Char
  | _, [] => []
  | 0, l => l
  | fuel + 1, c :: cs =>
    match matchLink (c :: cs) with
    | some (url, label, rest) =>
      '[' :: label ++ ']' :: '(' :: url ++ ')' :: subLinkGoF fuel rest
    | none => c :: subLinkGoF fuel cs

/-- Global substitution for pass 1 (`<url|text>` → `[text](url)`). -/
def subLinkGo (l : List Char) : List Char := subLinkGoF l.length l

/-- Attempt `<(https?://[^>]+)>` at the head.  Returns
`(matched URL including scheme, rest after the closing >)`. -/
def matchBareUrl : List Char → Option (List Char × List Char)
  | '<' :: rest =>
    let scheme :=
      if rest.take 8 = "https://".data then some ("https://".data, rest.drop 8)
      else if rest.take 7 = "http://".data then some ("http://".data, rest.drop 7)
      else none
    match scheme with
    | none => none
    | some (sch, rest1) =>
      let tail := rest1.takeWhile (fun c => c != '>')
      match tail, rest1.dropWhile (fun c => c != '>') with
      | _ :: _, '>' :: rest2 => some (sch ++ tail, rest2)
      | _, _ => none
  | _ => none

/-- Fuel-indexed scan for pass 2; fuel equal to the input length always
suffices (see `subBareUrlGoF_congr`). -/
def subBareUrlGoF : Nat → List Char → List Char
  | _, [] => []
  | 0, l => l
  | fuel + 1, c :: cs =>
    match matchBareUrl (c :: cs) with
    | some (url, rest) => url ++ subBareUrlGoF fuel rest
    | none => c :: subBareUrlGoF fuel cs

/-- Global substitution for pass 2 (`<http(s)://url>` → `http(s)://url`). -/
def subBareUrlGo (l : List Char) : List Char := subBareUrlGoF l.length l

/-- Pass 1 as a string transform. -/
def subLinkForm (s : String) : String := String.mk (subLinkGo s.data)

/-- Pass 2 as a string transform. -/
def subBareUrl (s : String) : String := String.mk (subBareUrlGo s.data)

/-- `_convert_slack_to_markdown` (lines 63-73): pass 1 then pass 2. -/
def convertSlackToMarkdown (text : String) : String :=
  subBareUrl (subLinkForm text)

/-! ## Payload extraction and forwarding (`process_webhook`, lines 99-201) -/

/-- `s.startswith('#')`. -/
def startsWithHash (s : String) : Bool :=
  match s.data with
  | '#' :: _ => true
  | _ => false

/-- Candidate thread subject (lines 121-125): `payload['text']` stripped,
then with every leading `#` and following whitespace removed when it starts
with `#`. -/
def subjectCandidate (t : String) : String :=
  let s := pyStrip t
  if startsWithHash s then pyStrip (lstripHash s) else s

/-- Lines 121-146 of `process_webhook`: derive `(thread_subject,
message_text)` from the payload.  The returned `message_text` is still a
raw JSON value (an attachment `text` need not be a string); markdown
conversion happens afterwards, at line 149. -/
def extractMessage (payload : Json) : Except PyErr (String × Json) := do
  let tRaw ← payload.pyGet "text" (.str "")
  let t ← tRaw.asStr .attributeError
  let thread_subject := subjectCandidate t
  let attachments ← payload.pyGet "attachments" (.arr [])
  let mt1 ←
    if attachments.pyTruthy then do
      let n ← attachments.pyLen
      if n > 0 then do
        let first ← attachments.pyIndex0
        first.pyGet "text" (.str "")
      else
        pure (Json.str "")
    else
      pure (Json.str "")
  let stage2 ←
    if !mt1.pyTruthy then do
      let fb ← payload.pyGet "text" (.str "")
      let fb2 ← payload.pyGet "text" (.str "")
      pure (fb, if Json.beq fb fb2 then "" else thread_subject)
    else
      pure (mt1, thread_subject)
  let mt3 ←
    if !stage2.1.pyTruthy then do
      let hasMsg ← payload.pyContainsKey "message"
      if hasMsg then do
        let mv ← payload.pyGetItem "message"
        mv.pyGet "text" (.str "")
      else
        pure stage2.1
    else
      pure stage2.1
  let mt4 := if !mt3.pyTruthy then Json.str (pyRepr payload) else mt3
  return (stage2.2, mt4)

/-- The per-service configuration entry, as read by `process_webhook`.  A
missing key is `none`; a service entry that is itself missing (or an empty
dict, equally falsy) is modelled as a missing `ServiceConfig`. -/
structure ServiceConfig where
  target : Option String
  webhook_url : Option String
  slack_webhook : Option String
deriving DecidableEq

/-- The `global:` section of the configuration file. -/
structure GlobalConfig where
  timeout_seconds : Option Nat
deriving DecidableEq

/-- Outcome of one outbound HTTP POST: a response with some status code, or
a transport failure (connection error or timeout — any
`requests.exceptions.RequestException`). -/
inductive HttpOutcome where
  | response (status : Nat)
  | transportError
deriving DecidableEq

/-- The result dict returned by `process_webhook`; `response_code = none`
models the absence of the key. -/
structure OutcomeResult where
  status : String
  message : String
  response_code : Option Nat
deriving DecidableEq

/-- The Glue-formatted request body (lines 151-161): exactly the keys
`text` and `target`, plus `threadSubject` present only when a non-empty
subject was derived (`none` models omission of the key). -/
structure ForwardPayload where
  text : String
  target : String
  threadSubject : Option String
deriving DecidableEq

/-- One outbound HTTP POST issued while handling a request, with the JSON
body and the `timeout=` argument passed to `requests.post`. -/
inductive OutboundCall where
  | primary (url : String) (body : ForwardPayload) (timeout : Nat)
  | mirror (url : String) (body : Json) (timeout : Nat)

/-- `self.config.get('global', ...).get('timeout_seconds', 30)` (line 86):
the globally configured timeout, defaulting to 30 seconds. -/
def mirrorTimeout (g : GlobalConfig) : Nat := g.timeout_seconds.getD 30

/-- Classification of the primary forward call (lines 174-194). -/
def classifyForward : HttpOutcome → OutcomeResult
  | .response code =>
    if code = 200 then
      ⟨"success", "Webhook forwarded successfully", some code⟩
    else
      ⟨"warning", "Target server returned status " ++ toString code, some code⟩
  | .transportError =>
    ⟨"error", "Error forwarding webhook to target server", none⟩

/-- `_post_to_slack` (lines 75-97): POSTs the original payload with the
globally configured timeout; every outcome — 200, non-200 or transport
failure — is only logged, so the raised-exception slot is always `none`
regardless of `outcome`. -/
def postToSlack (g : GlobalConfig) (payload : Json) (slack_webhook : String)
    (outcome : HttpOutcome) : List OutboundCall × Option PyErr :=
  ([OutboundCall.mirror slack_webhook payload (mirrorTimeout g)], none)

/-- `process_webhook` (lines 99-201), with the two outbound HTTP calls made
explicit: their outcomes are inputs, and the calls issued are returned as a
trace next to the result dict.  An uncaught Python exception is `.error`. -/
def processWebhook (g : GlobalConfig) (svc : Option ServiceConfig)
    (service_id : String) (payload : Json)
    (primaryOutcome : HttpOutcome) (mirrorOutcome : HttpOutcome) :
    Except PyErr (OutcomeResult × List OutboundCall) :=
  match svc with
  | none =>
    .ok (⟨"error", "No configuration found for service ID: " ++ service_id, none⟩, [])
  | some cfg =>
    match cfg.target, cfg.webhook_url with
    | some target, some webhook_url =>
      if target = "" || webhook_url = "" then
        .ok (⟨"error", "Incomplete service configuration (missing target or webhook_url)", none⟩, [])
      else do
        let (thread_subject, messageJson) ← extractMessage payload
        let messageStr ← messageJson.asStr .typeError
        let message_text := convertSlackToMarkdown messageStr
        let forward_payload : ForwardPayload :=
          { text := message_text
            target := target
            threadSubject := if thread_subject = "" then none else some thread_subject }
        let result := classifyForward primaryOutcome
        let primaryCall := OutboundCall.primary webhook_url forward_payload 30
        let mirrorCalls :=
          match cfg.slack_webhook with
          | some sw => if sw = "" then [] else (postToSlack g payload sw mirrorOutcome).1
          | none => []
        return (result, primaryCall :: mirrorCalls)
    | _, _ =>
      .ok (⟨"error", "Incomplete service configuration (missing target or webhook_url)", none⟩, [])

/-- Status-code mapping of `handle_webhook` (lines 384-389). -/
def httpStatusOf (r : OutcomeResult) : Nat :=
  if r.status = "success" then 200
  else if r.status = "warning" then 202
  else 400

/-- `handle_webhook` (lines 330-396) after the request body has been
decoded to `payload`: the empty-payload guard, the call into
`process_webhook`, the status mapping, and the catch-all that turns any
uncaught exception into a 500.  Returns `(HTTP status, response body)`. -/
def handleWebhook (g : GlobalConfig) (svc : Option ServiceConfig)
    (service_id : String) (payload : Json)
    (primaryOutcome mirrorOutcome : HttpOutcome) : Nat × OutcomeResult :=
  if !payload.pyTruthy then
    (400, ⟨"error", "Request body cannot be empty", none⟩)
  else
    match processWebhook g svc service_id payload primaryOutcome mirrorOutcome with
    | .error _ => (500, ⟨"error", "Internal server error", none⟩)
    | .ok (result, _) => (httpStatusOf result, result)

/-! ## Helper lemmas -/

mutual

theorem Json.beq_refl : ∀ j : Json, Json.beq j j = true
  | .null => rfl
  | .bool b => by simp [Json.beq]
  | .num n => by simp [Json.beq]
  | .str s => by simp [Json.beq]
  | .arr xs => by simp [Json.beq, Json.beqList_refl xs]
  | .obj fs => by simp [Json.beq, Json.beqFields_refl fs]

theorem Json.beqList_refl : ∀ xs : List Json, Json.beqList xs xs = true
  | [] => rfl
  | x :: xs => by simp [Json.beqList, Json.beq_refl x, Json.beqList_refl xs]

theorem Json.beqFields_refl : ∀ fs : List (String × Json), Json.beqFields fs fs = true
  | [] => rfl
  | (k, v) :: fs => by simp [Json.beqFields, Json.beq_refl v, Json.beqFields_refl fs]

end

theorem length_dropWhile_le (p : Char → Bool) (l : List Char) :
    (l.dropWhile p).length ≤ l.length := by
  induction l with
  | nil => simp [List.dropWhile]
  | cons c cs ih =>
    by_cases h : p c
    · simp [List.dropWhile, h]; omega
    · simp [List.dropWhile, h]

theorem matchLink_length {cs url label rest} (h : matchLink cs = some (url, label, rest)) :
    rest.length < cs.length := by
  unfold matchLink at h
  split at h
  · next rest' =>
    dsimp only at h
    split at h
    · next u us r2 heq =>
      split at h
      · next l ls r4 heq2 =>
        simp only [Option.some.injEq, Prod.mk.injEq] at h
        obtain ⟨h1, h2, h3⟩ := h
        subst h3
        have d1 : (rest'.dropWhile (fun c => c != '|' && c != '>')).length ≤ rest'.length :=
          length_dropWhile_le _ _
        have d2 : (us.dropWhile (fun c => c != '>')).length ≤ us.length :=
          length_dropWhile_le _ _
        rw [heq] at d1
        rw [heq2] at d2
        simp at d1 d2
        simp
        omega
      · exact absurd h (by simp)
    · exact absurd h (by simp)
  · exact absurd h (by simp)

theorem subLinkGoF_congr : ∀ f1 : Nat, ∀ f2 : Nat, ∀ l : List Char,
    l.length ≤ f1 → l.length ≤ f2 → subLinkGoF f1 l = subLinkGoF f2 l := by
  intro f1
  induction f1 with
  | zero =>
    intro f2 l h1 h2
    have : l = [] := List.length_eq_zero.mp (Nat.le_zero.mp h1)
    subst this
    cases f2 <;> rfl
  | succ f ih =>
    intro f2 l h1 h2
    match l with
    | [] => cases f2 <;> rfl
    | c :: cs =>
      match f2 with
      | 0 => simp at h2
      | g + 1 =>
        simp only [subLinkGoF]
        cases hm : matchLink (c :: cs) with
        | none =>
          simp only [List.length_cons] at h1 h2
          rw [ih g cs (by omega) (by omega)]
        | some r =>
          obtain ⟨url, label, rest⟩ := r
          have hl := matchLink_length hm
          simp only [List.length_cons] at h1 h2 hl
          dsimp only
          rw [ih g rest (by omega) (by omega)]

theorem matchBareUrl_length {cs url rest} (h : matchBareUrl cs = some (url, rest)) :
    rest.length < cs.length := by
  unfold matchBareUrl at h
  split at h
  · next rest' =>
    dsimp only at h
    split at h
    · exact absurd h (by simp)
    · next sch rest1 heq =>
      split at h
      · next t ts r2 heq2 =>
        simp only [Option.some.injEq, Prod.mk.injEq] at h
        obtain ⟨h1, h3⟩ := h
        subst h3
        have d2 : (rest1.dropWhile (fun c => c != '>')).length ≤ rest1.length :=
          length_dropWhile_le _ _
        rw [heq2] at d2
        have hr1 : rest1.length ≤ rest'.length := by
          split at heq
          · simp only [Option.some.injEq, Prod.mk.injEq] at heq
            obtain ⟨he1, he2⟩ := heq
            subst he2
            simp
          · split at heq
            · simp only [Option.some.injEq, Prod.mk.injEq] at heq
              obtain ⟨he1, he2⟩ := heq
              subst he2
              simp
            · exact absurd heq (by simp)
        simp at d2
        simp
        omega
      · exact absurd h (by simp)
  · exact absurd h (by simp)

theorem subBareUrlGoF_congr : ∀ f1 : Nat, ∀ f2 : Nat, ∀ l : List Char,
    l.length ≤ f1 → l.length ≤ f2 → subBareUrlGoF f1 l = subBareUrlGoF f2 l := by
  intro f1
  induction f1 with
  | zero =>
    intro f2 l h1 h2
    have : l = [] := List.length_eq_zero.mp (Nat.le_zero.mp h1)
    subst this
    cases f2 <;> rfl
  | succ f ih =>
    intro f2 l h1 h2
    match l with
    | [] => cases f2 <;> rfl
    | c :: cs =>
      match f2 with
      | 0 => simp at h2
      | g + 1 =>
        simp only [subBareUrlGoF]
        cases hm : matchBareUrl (c :: cs) with
        | none =>
          simp only [List.length_cons] at h1 h2
          rw [ih g cs (by omega) (by omega)]
        | some r =>
          obtain ⟨url, rest⟩ := r
          have hl := matchBareUrl_length hm
          simp only [List.length_cons] at h1 h2 hl
          dsimp only
          rw [ih g rest (by omega) (by omega)]

theorem takeWhile_append_all (p : Char → Bool) (as : List Char) (b : Char) (bs : List Char)
    (ha : ∀ c ∈ as, p c = true) (hb : p b = false) :
    (as ++ b :: bs).takeWhile p = as := by
  induction as with
  | nil => simp [List.takeWhile, hb]
  | cons a rest ih =>
    have hpa : p a = true := ha a (by simp)
    simp only [List.cons_append, List.takeWhile_cons, hpa]
    simp only [if_true]
    rw [ih (fun c hc => ha c (by simp [hc]))]

theorem dropWhile_append_all (p : Char → Bool) (as : List Char) (b : Char) (bs : List Char)
    (ha : ∀ c ∈ as, p c = true) (hb : p b = false) :
    (as ++ b :: bs).dropWhile p = b :: bs := by
  induction as with
  | nil => simp [List.dropWhile, hb]
  | cons a rest ih =>
    have hpa : p a = true := ha a (by simp)
    simp only [List.cons_append, List.dropWhile_cons, hpa]
    simp only [if_true]
    exact ih (fun c hc => ha c (by simp [hc]))

theorem matchLink_pattern (url label rest : List Char)
    (hu : url ≠ []) (hucs : ∀ c ∈ url, c ≠ '|' ∧ c ≠ '>')
    (hl : label ≠ []) (hlcs : ∀ c ∈ label, c ≠ '>') :
    matchLink ('<' :: (url ++ '|' :: (label ++ '>' :: rest))) = some (url, label, rest) := by
  have htw1 : (url ++ '|' :: (label ++ '>' :: rest)).takeWhile
      (fun c => c != '|' && c != '>') = url := by
    apply takeWhile_append_all
    · intro c hc
      obtain ⟨h1, h2⟩ := hucs c hc
      simp [h1, h2]
    · simp
  have hdw1 : (url ++ '|' :: (label ++ '>' :: rest)).dropWhile
      (fun c => c != '|' && c != '>') = '|' :: (label ++ '>' :: rest) := by
    apply dropWhile_append_all
    · intro c hc
      obtain ⟨h1, h2⟩ := hucs c hc
      simp [h1, h2]
    · simp
  have htw2 : (label ++ '>' :: rest).takeWhile (fun c => c != '>') = label := by
    apply takeWhile_append_all
    · intro c hc
      simp [hlcs c hc]
    · simp
  have hdw2 : (label ++ '>' :: rest).dropWhile (fun c => c != '>') = '>' :: rest := by
    apply dropWhile_append_all
    · intro c hc
      simp [hlcs c hc]
    · simp
  unfold matchLink
  simp only [htw1, hdw1, htw2, hdw2]
  match url, hu with
  | u :: us, _ =>
    match label, hl with
    | l :: ls, _ =>
      simp only [htw2, hdw2]

theorem subLinkGo_pattern (url label rest : List Char)
    (hu : url ≠ []) (hucs : ∀ c ∈ url, c ≠ '|' ∧ c ≠ '>')
    (hl : label ≠ []) (hlcs : ∀ c ∈ label, c ≠ '>') :
    subLinkGo ('<' :: (url ++ '|' :: (label ++ '>' :: rest))) =
      '[' :: label ++ ']' :: '(' :: url ++ ')' :: subLinkGo rest := by
  have hm := matchLink_pattern url label rest hu hucs hl hlcs
  unfold subLinkGo
  simp only [List.length_cons]
  rw [subLinkGoF]
  rw [hm]
  dsimp only
  have hlen : rest.length ≤ (url ++ '|' :: (label ++ '>' :: rest)).length := by
    simp only [List.length_append, List.length_cons]
    omega
  rw [subLinkGoF_congr _ rest.length rest hlen (le_refl _)]

theorem matchBareUrl_pattern_https (tail rest : List Char)
    (ht : tail ≠ []) (htc : ∀ c ∈ tail, c ≠ '>') :
    matchBareUrl ('<' :: ("https://".data ++ (tail ++ '>' :: rest))) =
      some ("https://".data ++ tail, rest) := by
  obtain ⟨t0, ts, rfl⟩ : ∃ t0 ts, tail = t0 :: ts := by
    cases tail with
    | nil => exact absurd rfl ht
    | cons a b => exact ⟨a, b, rfl⟩
  have htw : ((t0 :: ts) ++ '>' :: rest).takeWhile (fun c => c != '>') = t0 :: ts := by
    apply takeWhile_append_all
    · intro c hc
      simp [htc c hc]
    · simp
  have hdw : ((t0 :: ts) ++ '>' :: rest).dropWhile (fun c => c != '>') = '>' :: rest := by
    apply dropWhile_append_all
    · intro c hc
      simp [htc c hc]
    · simp
  have step : matchBareUrl ('<' :: ("https://".data ++ (t0 :: ts ++ '>' :: rest))) =
    (match (if ("https://".data ++ (t0 :: ts ++ '>' :: rest)).take 8 = "https://".data then
        some ("https://".data, ("https://".data ++ (t0 :: ts ++ '>' :: rest)).drop 8)
      else if ("https://".data ++ (t0 :: ts ++ '>' :: rest)).take 7 = "http://".data then
        some ("http://".data, ("https://".data ++ (t0 :: ts ++ '>' :: rest)).drop 7)
      else none) with
     | none => none
     | some (sch, rest1) =>
       match rest1.takeWhile (fun c => c != '>'), rest1.dropWhile (fun c => c != '>') with
       | _ :: _, '>' :: rest2 => some (sch ++ rest1.takeWhile (fun c => c != '>'), rest2)
       | _, _ => none) := rfl
  rw [step]
  rw [if_pos (show ("https://".data ++ (t0 :: ts ++ '>' :: rest)).take 8 = "https://".data from rfl)]
  rw [show ("https://".data ++ (t0 :: ts ++ '>' :: rest)).drop 8 = (t0 :: ts) ++ '>' :: rest from rfl]
  dsimp only
  rw [htw, hdw]
  rfl

theorem matchBareUrl_pattern_http (tail rest : List Char)
    (ht : tail ≠ []) (htc : ∀ c ∈ tail, c ≠ '>') :
    matchBareUrl ('<' :: ("http://".data ++ (tail ++ '>' :: rest))) =
      some ("http://".data ++ tail, rest) := by
  obtain ⟨t0, ts, rfl⟩ : ∃ t0 ts, tail = t0 :: ts := by
    cases tail with
    | nil => exact absurd rfl ht
    | cons a b => exact ⟨a, b, rfl⟩
  have htw : ((t0 :: ts) ++ '>' :: rest).takeWhile (fun c => c != '>') = t0 :: ts := by
    apply takeWhile_append_all
    · intro c hc
      simp [htc c hc]
    · simp
  have hdw : ((t0 :: ts) ++ '>' :: rest).dropWhile (fun c => c != '>') = '>' :: rest := by
    apply dropWhile_append_all
    · intro c hc
      simp [htc c hc]
    · simp
  have step : matchBareUrl ('<' :: ("http://".data ++ (t0 :: ts ++ '>' :: rest))) =
    (match (if ("http://".data ++ (t0 :: ts ++ '>' :: rest)).take 8 = "https://".data then
        some ("https://".data, ("http://".data ++ (t0 :: ts ++ '>' :: rest)).drop 8)
      else if ("http://".data ++ (t0 :: ts ++ '>' :: rest)).take 7 = "http://".data then
        some ("http://".data, ("http://".data ++ (t0 :: ts ++ '>' :: rest)).drop 7)
      else none) with
     | none => none
     | some (sch, rest1) =>
       match rest1.takeWhile (fun c => c != '>'), rest1.dropWhile (fun c => c != '>') with
       | _ :: _, '>' :: rest2 => some (sch ++ rest1.takeWhile (fun c => c != '>'), rest2)
       | _, _ => none) := rfl
  rw [step]
  have hne : ¬ ("http://".data ++ (t0 :: ts ++ '>' :: rest)).take 8 = "https://".data := by
    show ¬ ('h' :: 't' :: 't' :: 'p' :: ':' :: '/' :: '/' :: t0 :: [] =
      'h' :: 't' :: 't' :: 'p' :: 's' :: ':' :: '/' :: '/' :: [])
    simp
  rw [if_neg hne]
  rw [if_pos (show ("http://".data ++ (t0 :: ts ++ '>' :: rest)).take 7 = "http://".data from rfl)]
  rw [show ("http://".data ++ (t0 :: ts ++ '>' :: rest)).drop 7 = (t0 :: ts) ++ '>' :: rest from rfl]
  dsimp only
  rw [htw, hdw]
  rfl

theorem subBareUrlGo_pattern (scheme tail rest : List Char)
    (hs : scheme = "https://".data ∨ scheme = "http://".data)
    (ht : tail ≠ []) (htc : ∀ c ∈ tail, c ≠ '>') :
    subBareUrlGo ('<' :: (scheme ++ (tail ++ '>' :: rest))) =
      (scheme ++ tail) ++ subBareUrlGo rest := by
  have hm : matchBareUrl ('<' :: (scheme ++ (tail ++ '>' :: rest))) =
      some (scheme ++ tail, rest) := by
    rcases hs with hs | hs <;> subst hs
    · exact matchBareUrl_pattern_https tail rest ht htc
    · exact matchBareUrl_pattern_http tail rest ht htc
  unfold subBareUrlGo
  simp only [List.length_cons]
  rw [subBareUrlGoF]
  rw [hm]
  dsimp only
  have hlen : rest.length ≤ (scheme ++ (tail ++ '>' :: rest)).length := by
    simp only [List.length_append, List.length_cons]
    omega
  rw [subBareUrlGoF_congr _ rest.length rest hlen (le_refl _)]

theorem matchLink_none (c : Char) (cs : List Char) (h : c ≠ '<') :
    matchLink (c :: cs) = none := by
  unfold matchLink
  split
  · rename_i rest heq
    injection heq with h1 h2
    exact absurd h1 h
  · rfl

theorem matchBareUrl_none (c : Char) (cs : List Char) (h : c ≠ '<') :
    matchBareUrl (c :: cs) = none := by
  unfold matchBareUrl
  split
  · rename_i rest heq
    injection heq with h1 h2
    exact absurd h1 h
  · rfl

theorem subLinkGoF_id (fuel : Nat) :
    ∀ l : List Char, (∀ c ∈ l, c ≠ '<') → subLinkGoF fuel l = l := by
  induction fuel with
  | zero =>
    intro l h
    cases l <;> rfl
  | succ f ih =>
    intro l h
    cases l with
    | nil => rfl
    | cons c cs =>
      rw [subLinkGoF]
      rw [matchLink_none c cs (h c (by simp))]
      dsimp only
      rw [ih cs (fun d hd => h d (by simp [hd]))]

theorem subBareUrlGoF_id (fuel : Nat) :
    ∀ l : List Char, (∀ c ∈ l, c ≠ '<') → subBareUrlGoF fuel l = l := by
  induction fuel with
  | zero =>
    intro l h
    cases l <;> rfl
  | succ f ih =>
    intro l h
    cases l with
    | nil => rfl
    | cons c cs =>
      rw [subBareUrlGoF]
      rw [matchBareUrl_none c cs (h c (by simp))]
      dsimp only
      rw [ih cs (fun d hd => h d (by simp [hd]))]

theorem convertSlackToMarkdown_id (s : String) (h : ∀ c ∈ s.data, c ≠ '<') :
    convertSlackToMarkdown s = s := by
  obtain ⟨l⟩ := s
  show subBareUrl (String.mk (subLinkGoF l.length l)) = String.mk l
  rw [subLinkGoF_id l.length l h]
  show String.mk (subBareUrlGoF l.length l) = String.mk l
  rw [subBareUrlGoF_id l.length l h]

theorem except_bind_ok {α β : Type} (a : α) (f : α → Except PyErr β) :
    (Except.ok a : Except PyErr α) >>= f = f a := rfl

theorem except_bind_error {α β : Type} (e : PyErr) (f : α → Except PyErr β) :
    (Except.error e : Except PyErr α) >>= f = Except.error e := rfl

theorem except_pure_eq {α : Type} (a : α) :
    (pure a : Except PyErr α) = Except.ok a := rfl

theorem processWebhook_forward (g : GlobalConfig) (cfg : ServiceConfig) (sid : String)
    (payload : Json) (po mo : HttpOutcome) (target url subj body : String)
    (ht : cfg.target = some target) (htne : target ≠ "")
    (hu : cfg.webhook_url = some url) (hune : url ≠ "")
    (hex : extractMessage payload = .ok (subj, Json.str body)) :
    processWebhook g (some cfg) sid payload po mo =
      .ok (classifyForward po,
        OutboundCall.primary url
          ⟨convertSlackToMarkdown body, target,
            if subj = "" then none else some subj⟩ 30 ::
        (match cfg.slack_webhook with
         | some sw => if sw = "" then [] else [OutboundCall.mirror sw payload (mirrorTimeout g)]
         | none => [])) := by
  simp [processWebhook, ht, hu, htne, hune, hex, except_bind_ok, except_pure_eq,
    Json.asStr, postToSlack]

theorem processWebhook_ok_inv (g : GlobalConfig) (cfg : ServiceConfig) (sid : String)
    (payload : Json) (po mo : HttpOutcome) (target url : String)
    (res : OutcomeResult) (calls : List OutboundCall)
    (ht : cfg.target = some target) (htne : target ≠ "")
    (hu : cfg.webhook_url = some url) (hune : url ≠ "")
    (hproc : processWebhook g (some cfg) sid payload po mo = .ok (res, calls)) :
    ∃ subj body, extractMessage payload = .ok (subj, Json.str body)
      ∧ res = classifyForward po
      ∧ calls = OutboundCall.primary url
          ⟨convertSlackToMarkdown body, target,
            if subj = "" then none else some subj⟩ 30 ::
        (match cfg.slack_webhook with
         | some sw => if sw = "" then [] else [OutboundCall.mirror sw payload (mirrorTimeout g)]
         | none => []) := by
  simp only [processWebhook, ht, hu] at hproc
  cases hext : extractMessage payload with
  | error e =>
    simp [htne, hune, hext, except_bind_error] at hproc
  | ok pr =>
    obtain ⟨subj, mj⟩ := pr
    cases mj with
    | str body =>
      refine ⟨subj, body, rfl, ?_, ?_⟩ <;>
        · simp [htne, hune, hext, except_bind_ok, except_pure_eq, Json.asStr,
            postToSlack] at hproc
          simp [hproc.1.symm, hproc.2.symm, postToSlack]
    | null => simp [htne, hune, hext, except_bind_ok, except_bind_error, Json.asStr] at hproc
    | bool b => simp [htne, hune, hext, except_bind_ok, except_bind_error, Json.asStr] at hproc
    | num n => simp [htne, hune, hext, except_bind_ok, except_bind_error, Json.asStr] at hproc
    | arr xs => simp [htne, hune, hext, except_bind_ok, except_bind_error, Json.asStr] at hproc
    | obj fs => simp [htne, hune, hext, except_bind_ok, except_bind_error, Json.asStr] at hproc

theorem lookupField_ne_nil (fields : List (String × Json)) (k : String) (v : Json)
    (h : lookupField fields k = some v) : fields ≠ [] := by
  cases fields with
  | nil => simp [lookupField] at h
  | cons p rest => simp

theorem obj_truthy_of_lookup (fields : List (String × Json)) (k : String) (v : Json)
    (h : lookupField fields k = some v) : (Json.obj fields).pyTruthy = true := by
  cases fields with
  | nil => simp [lookupField] at h
  | cons p rest => rfl

theorem extract_error_nonstring_text (fields : List (String × Json)) (v : Json)
    (hv : lookupField fields "text" = some v) (hnstr : ∀ s, v ≠ Json.str s) :
    extractMessage (Json.obj fields) = .error .attributeError := by
  cases v <;>
    first
      | exact absurd rfl (hnstr _)
      | simp [extractMessage, Json.pyGet, Json.asStr, hv, except_bind_ok, except_bind_error]

theorem extract_error_nonobj_attachment (fields : List (String × Json)) (a : Json)
    (restA : List Json)
    (hatt : lookupField fields "attachments" = some (Json.arr (a :: restA)))
    (hnobj : ∀ afs, a ≠ Json.obj afs) :
    extractMessage (Json.obj fields) = .error .attributeError := by
  cases htf : lookupField fields "text" with
  | none =>
    cases a <;>
      first
        | exact absurd rfl (hnobj _)
        | simp [extractMessage, Json.pyGet, Json.asStr, Json.pyTruthy, Json.pyLen,
            Json.pyIndex0, htf, hatt, except_bind_ok, except_bind_error]
  | some v =>
    cases v with
    | str t =>
      cases a <;>
        first
          | exact absurd rfl (hnobj _)
          | simp [extractMessage, Json.pyGet, Json.asStr, Json.pyTruthy, Json.pyLen,
              Json.pyIndex0, htf, hatt, except_bind_ok, except_bind_error]
    | null => exact extract_error_nonstring_text fields _ htf (fun s h => Json.noConfusion h)
    | bool b => exact extract_error_nonstring_text fields _ htf (fun s h => Json.noConfusion h)
    | num n => exact extract_error_nonstring_text fields _ htf (fun s h => Json.noConfusion h)
    | arr xs => exact extract_error_nonstring_text fields _ htf (fun s h => Json.noConfusion h)
    | obj fs => exact extract_error_nonstring_text fields _ htf (fun s h => Json.noConfusion h)

theorem processWebhook_error_of_extract (g : GlobalConfig) (cfg : ServiceConfig) (sid : String)
    (payload : Json) (po mo : HttpOutcome) (target url : String) (e : PyErr)
    (ht : cfg.target = some target) (htne : target ≠ "")
    (hu : cfg.webhook_url = some url) (hune : url ≠ "")
    (he : extractMessage payload = .error e) :
    processWebhook g (some cfg) sid payload po mo = .error e := by
  simp [processWebhook, ht, hu, htne, hune, he, except_bind_error]

theorem handleWebhook_500_of_error (g : GlobalConfig) (svc : Option ServiceConfig)
    (sid : String) (payload : Json) (po mo : HttpOutcome) (e : PyErr)
    (htruthy : payload.pyTruthy = true)
    (hp : processWebhook g svc sid payload po mo = .error e) :
    handleWebhook g svc sid payload po mo =
      (500, ⟨"error", "Internal server error", none⟩) := by
  simp [handleWebhook, htruthy, hp]

theorem processWebhook_incomplete (g : GlobalConfig) (sid : String) (payload : Json)
    (po mo : HttpOutcome) (cfg : ServiceConfig)
    (h : cfg.target = none ∨ cfg.target = some "" ∨
      cfg.webhook_url = none ∨ cfg.webhook_url = some "") :
    processWebhook g (some cfg) sid payload po mo =
      .ok (⟨"error", "Incomplete service configuration (missing target or webhook_url)", none⟩, []) := by
  obtain ⟨t, w, sl⟩ := cfg
  rcases h with h | h | h | h
  · subst h
    cases w <;> rfl
  · subst h
    cases w with
    | none => rfl
    | some u => simp [processWebhook]
  · subst h
    cases t <;> rfl
  · subst h
    cases t with
    | none => rfl
    | some tv => simp [processWebhook]

/-! ## Claims -/

/-- C4: the markup normalizer is exactly the two ordered global
substitutions — pass 1 rewrites every `<URL|LABEL>` occurrence (URL up to
the first `|`, LABEL up to the first `>`, neither crossing a `>`) to
`[LABEL](URL)`, then pass 2 strips the angle brackets of every bare
`<http(s)://...>`; in particular
`normalize("<https://a.com|Click>") = "[Click](https://a.com)"`,
`normalize("<https://a.com>") = "https://a.com"`, and a non-http(s)
bracketed URL such as `<ftp://a.com>` is unchanged. -/
theorem c4_normalizer_two_passes :
    (∀ s : String, convertSlackToMarkdown s = subBareUrl (subLinkForm s))
    ∧ (∀ url label rest : List Char,
        url ≠ [] → (∀ c ∈ url, c ≠ '|' ∧ c ≠ '>') →
        label ≠ [] → (∀ c ∈ label, c ≠ '>') →
        subLinkGo ('<' :: (url ++ '|' :: (label ++ '>' :: rest))) =
          '[' :: label ++ ']' :: '(' :: url ++ ')' :: subLinkGo rest)
    ∧ (∀ scheme tail rest : List Char,
        (scheme = "https://".data ∨ scheme = "http://".data) →
        tail ≠ [] → (∀ c ∈ tail, c ≠ '>') →
        subBareUrlGo ('<' :: (scheme ++ (tail ++ '>' :: rest))) =
          (scheme ++ tail) ++ subBareUrlGo rest)
    ∧ convertSlackToMarkdown "<https://a.com|Click>" = "[Click](https://a.com)"
    ∧ convertSlackToMarkdown "<https://a.com>" = "https://a.com"
    ∧ convertSlackToMarkdown "<ftp://a.com>" = "<ftp://a.com>" :=
  ⟨fun _ => rfl, subLinkGo_pattern, subBareUrlGo_pattern,
    by decide, by decide, by decide⟩

/-- Witness for C4: the two universally quantified substitution equations
instantiated at concrete link text. -/
theorem c4_witness :
    subLinkGo ('<' :: ("a".data ++ '|' :: ("b".data ++ '>' :: []))) =
      '[' :: "b".data ++ ']' :: '(' :: "a".data ++ ')' :: subLinkGo []
    ∧ subBareUrlGo ('<' :: ("https://".data ++ ("x".data ++ '>' :: []))) =
      ("https://".data ++ "x".data) ++ subBareUrlGo [] :=
  ⟨c4_normalizer_two_passes.2.1 "a".data "b".data [] (by decide) (by decide)
      (by decide) (by decide),
    c4_normalizer_two_passes.2.2.1 "https://".data "x".data [] (Or.inl rfl)
      (by decide) (by decide)⟩

/-- C5 fails as stated: this input is a counterexample to idempotence.
Pass 2 strips the brackets of the inner bare URL, which exposes a fresh
`<...|...>` link form that only a second application rewrites. -/
theorem c5_counterexample :
    convertSlackToMarkdown (convertSlackToMarkdown "<a<https://x>|b>") ≠
      convertSlackToMarkdown "<a<https://x>|b>" := by decide

/-- C5 (amended): the normalizer is idempotent on every string containing
no `<` character (in particular on fully link-free text); on arbitrary
strings a second application can differ. -/
theorem c5_amended_idempotent_no_langle (s : String)
    (h : ∀ c ∈ s.data, c ≠ '<') :
    convertSlackToMarkdown (convertSlackToMarkdown s) = convertSlackToMarkdown s := by
  rw [convertSlackToMarkdown_id s h, convertSlackToMarkdown_id s h]

/-- Witness for the amended C5 at a concrete already-normalized string. -/
theorem c5_witness :
    convertSlackToMarkdown (convertSlackToMarkdown "[Click](https://a.com)") =
      convertSlackToMarkdown "[Click](https://a.com)" :=
  c5_amended_idempotent_no_langle "[Click](https://a.com)" (by decide)

/-- C1: whenever `attachments` is a non-empty sequence whose first element
has a non-empty `text` field, extraction returns that attachment text as
the body, and the subject is the top-level `text` trimmed of surrounding
whitespace with all leading `#` and following whitespace stripped (the
empty string when the top-level `text` field is absent). -/
theorem c1_attachment_text_extraction (fields afields : List (String × Json))
    (restAtt : List Json) (s : String) (tOpt : Option String)
    (hatt : lookupField fields "attachments" = some (Json.arr (Json.obj afields :: restAtt)))
    (htext : lookupField afields "text" = some (Json.str s))
    (hs : s ≠ "")
    (htop : lookupField fields "text" = Option.map Json.str tOpt) :
    extractMessage (Json.obj fields) = .ok (subjectCandidate (tOpt.getD ""), Json.str s) := by
  cases tOpt with
  | none =>
    simp only [Option.map_none'] at htop
    simp [extractMessage, Json.pyGet, Json.asStr, Json.pyTruthy, Json.pyLen, Json.pyIndex0,
      except_bind_ok, except_bind_error, except_pure_eq, htop, hatt, htext, hs]
  | some t =>
    simp only [Option.map_some'] at htop
    simp [extractMessage, Json.pyGet, Json.asStr, Json.pyTruthy, Json.pyLen, Json.pyIndex0,
      except_bind_ok, except_bind_error, except_pure_eq, htop, hatt, htext, hs]

/-- Witness for C1 at the payload
`\x7b"text": "# Hello", "attachments": [\x7b"text": "World"\x7d]\x7d`. -/
theorem c1_witness :
    extractMessage (Json.obj [("text", Json.str "# Hello"),
        ("attachments", Json.arr [Json.obj [("text", Json.str "World")]])]) =
      .ok ("Hello", Json.str "World") :=
  c1_attachment_text_extraction
    [("text", Json.str "# Hello"),
      ("attachments", Json.arr [Json.obj [("text", Json.str "World")]])]
    [("text", Json.str "World")] [] "World" (some "# Hello")
    rfl rfl (by decide) rfl

/-- C2 fails as stated at the payload `\x7b"text": ""\x7d`: `text` is the only
field present, yet the body is the stringified payload, not the `text`
field, because the empty string is falsy at every fallback step. -/
theorem c2_counterexample :
    extractMessage (Json.obj [("text", Json.str "")]) ≠ Except.ok ("", Json.str "") := by
  intro hcl
  have hev : extractMessage (Json.obj [("text", Json.str "")]) =
      Except.ok ("", Json.str "\x7b'text': ''\x7d") := by rfl
  rw [hev] at hcl
  simp only [Except.ok.injEq, Prod.mk.injEq, Json.str.injEq] at hcl
  exact absurd hcl.2 (by decide)

/-- C2 (amended): when `attachments` is absent, `text` is the only field
present and `text` is non-empty, extraction returns body = `text` and
subject = "" (the duplication tie-break discards the candidate subject);
when `text` is the empty string the body instead falls back to the
stringified payload. -/
theorem c2_amended_text_only (s : String) (hs : s ≠ "") :
    extractMessage (Json.obj [("text", Json.str s)]) = .ok ("", Json.str s) := by
  simp [extractMessage, Json.pyGet, Json.asStr, Json.pyTruthy, Json.pyLen, Json.pyIndex0,
    Json.pyContainsKey, lookupField, except_bind_ok, except_pure_eq, hs, Json.beq]

/-- Witness for the amended C2 at the payload `\x7b"text": "hi"\x7d`. -/
theorem c2_witness :
    extractMessage (Json.obj [("text", Json.str "hi")]) = .ok ("", Json.str "hi") :=
  c2_amended_text_only "hi" (by decide)

/-- C3: for every complete service configuration the request body POSTed to
the primary destination is exactly `\x7btext, target\x7d` plus a
`threadSubject` key present if and only if the derived subject is
non-empty; in particular for target "grp_1" and payload
`\x7b"text": "# Hello", "attachments": [\x7b"text": "World"\x7d]\x7d` the body is
`\x7b"text": "World", "target": "grp_1", "threadSubject": "Hello"\x7d`. -/
theorem c3_forward_request :
    (∀ (g : GlobalConfig) (cfg : ServiceConfig) (sid : String) (payload : Json)
        (po mo : HttpOutcome) (target url subj body : String),
      cfg.target = some target → target ≠ "" →
      cfg.webhook_url = some url → url ≠ "" →
      extractMessage payload = .ok (subj, Json.str body) →
      ∃ restCalls,
        processWebhook g (some cfg) sid payload po mo =
          .ok (classifyForward po,
            OutboundCall.primary url
              ⟨convertSlackToMarkdown body, target,
                if subj = "" then none else some subj⟩ 30 :: restCalls))
    ∧ processWebhook ⟨none⟩ (some ⟨some "grp_1", some "https://glue.example", none⟩)
        "svc"
        (Json.obj [("text", Json.str "# Hello"),
          ("attachments", Json.arr [Json.obj [("text", Json.str "World")]])])
        (.response 200) (.response 200) =
      .ok (⟨"success", "Webhook forwarded successfully", some 200⟩,
        [OutboundCall.primary "https://glue.example"
          ⟨"World", "grp_1", some "Hello"⟩ 30]) :=
  ⟨fun g cfg sid payload po mo target url subj body ht htne hu hune hex =>
    ⟨_, processWebhook_forward g cfg sid payload po mo target url subj body
      ht htne hu hune hex⟩,
   by rfl⟩

/-- Witness for C3's universal part at a concrete config and payload. -/
theorem c3_witness :
    ∃ restCalls,
      processWebhook ⟨none⟩ (some ⟨some "grp_1", some "u", none⟩) "svc"
          (Json.obj [("text", Json.str "# Hi"),
            ("attachments", Json.arr [Json.obj [("text", Json.str "B")]])])
          (.response 200) (.response 200) =
        .ok (classifyForward (.response 200),
          OutboundCall.primary "u"
            ⟨convertSlackToMarkdown "B", "grp_1",
              if ("Hi" : String) = "" then none else some "Hi"⟩ 30 :: restCalls) :=
  c3_forward_request.1 ⟨none⟩ ⟨some "grp_1", some "u", none⟩ "svc"
    (Json.obj [("text", Json.str "# Hi"),
      ("attachments", Json.arr [Json.obj [("text", Json.str "B")]])])
    (.response 200) (.response 200) "grp_1" "u" "Hi" "B"
    rfl (by decide) rfl (by decide) (by rfl)

/-- C6: upstream status exactly 200 maps to status=success and HTTP 200;
any other upstream status maps to status=warning with the code propagated
in `response_code` and HTTP 202; a transport failure maps to status=error,
a generic message, no `response_code`, and HTTP 400. -/
theorem c6_outcome_classification : ∀ code : Nat,
    (classifyForward (.response 200) =
        ⟨"success", "Webhook forwarded successfully", some 200⟩
      ∧ httpStatusOf (classifyForward (.response 200)) = 200)
    ∧ (code ≠ 200 →
        (classifyForward (.response code)).status = "warning"
        ∧ (classifyForward (.response code)).response_code = some code
        ∧ httpStatusOf (classifyForward (.response code)) = 202)
    ∧ ((classifyForward .transportError).status = "error"
      ∧ (classifyForward .transportError).message =
          "Error forwarding webhook to target server"
      ∧ (classifyForward .transportError).response_code = none
      ∧ httpStatusOf (classifyForward .transportError) = 400)
    ∧ handleWebhook ⟨none⟩ (some ⟨some "grp_1", some "u", none⟩) "svc"
        (Json.obj [("text", Json.str "hi")]) (.response 200) (.response 200) =
      (200, ⟨"success", "Webhook forwarded successfully", some 200⟩)
    ∧ handleWebhook ⟨none⟩ (some ⟨some "grp_1", some "u", none⟩) "svc"
        (Json.obj [("text", Json.str "hi")]) (.response 500) (.response 200) =
      (202, ⟨"warning", "Target server returned status 500", some 500⟩)
    ∧ handleWebhook ⟨none⟩ (some ⟨some "grp_1", some "u", none⟩) "svc"
        (Json.obj [("text", Json.str "hi")]) .transportError (.response 200) =
      (400, ⟨"error", "Error forwarding webhook to target server", none⟩) := by
  intro code
  refine ⟨⟨rfl, rfl⟩, ?_, ⟨rfl, rfl, rfl, rfl⟩, by rfl, by rfl, by rfl⟩
  intro h
  refine ⟨?_, ?_, ?_⟩ <;> simp [classifyForward, httpStatusOf, h]

/-- Witness for C6's non-200 branch at upstream status 500. -/
theorem c6_witness :
    (classifyForward (.response 500)).status = "warning"
    ∧ (classifyForward (.response 500)).response_code = some 500
    ∧ httpStatusOf (classifyForward (.response 500)) = 202 :=
  (c6_outcome_classification 500).2.1 (by decide)

/-- C7 fails only on the exact wording of the error message: for an
incomplete entry the code returns the message
"Incomplete service configuration (missing target or webhook_url)",
not "incomplete configuration". -/
theorem c7_counterexample :
    processWebhook ⟨none⟩ (some ⟨none, some "u", none⟩) "svc"
        (Json.obj [("text", Json.str "hi")]) (.response 200) (.response 200) =
      .ok (⟨"error",
        "Incomplete service configuration (missing target or webhook_url)", none⟩, [])
    ∧ "Incomplete service configuration (missing target or webhook_url)" ≠
        "incomplete configuration" :=
  ⟨by rfl, by decide⟩

/-- C7 (amended): an unknown service identifier, or an entry with a missing
or empty routing target or destination URL, yields an OutcomeResult with
status=error — message "Incomplete service configuration (missing target or
webhook_url)" in the incomplete case — with an empty outbound-call trace,
and the HTTP layer responds 400. -/
theorem c7_amended_config_errors :
    ∀ (g : GlobalConfig) (sid : String) (payload : Json) (po mo : HttpOutcome),
    (processWebhook g none sid payload po mo =
      .ok (⟨"error", "No configuration found for service ID: " ++ sid, none⟩, []))
    ∧ (∀ cfg : ServiceConfig,
        (cfg.target = none ∨ cfg.target = some "" ∨
          cfg.webhook_url = none ∨ cfg.webhook_url = some "") →
        processWebhook g (some cfg) sid payload po mo =
          .ok (⟨"error",
            "Incomplete service configuration (missing target or webhook_url)", none⟩, []))
    ∧ (payload.pyTruthy = true →
        handleWebhook g none sid payload po mo =
          (400, ⟨"error", "No configuration found for service ID: " ++ sid, none⟩))
    ∧ (payload.pyTruthy = true → ∀ cfg : ServiceConfig,
        (cfg.target = none ∨ cfg.target = some "" ∨
          cfg.webhook_url = none ∨ cfg.webhook_url = some "") →
        handleWebhook g (some cfg) sid payload po mo =
          (400, ⟨"error",
            "Incomplete service configuration (missing target or webhook_url)", none⟩)) := by
  intro g sid payload po mo
  refine ⟨rfl, fun cfg h => processWebhook_incomplete g sid payload po mo cfg h, ?_, ?_⟩
  · intro ht
    simp [handleWebhook, ht, processWebhook, httpStatusOf]
  · intro ht cfg h
    simp [handleWebhook, ht, processWebhook_incomplete g sid payload po mo cfg h, httpStatusOf]

/-- Witness for the amended C7: incomplete entry (missing target) at a
concrete truthy payload gives HTTP 400 with no outbound calls. -/
theorem c7_witness :
    handleWebhook ⟨none⟩ (some ⟨none, some "u", none⟩) "svc"
        (Json.obj [("text", Json.str "hi")]) (.response 200) (.response 200) =
      (400, ⟨"error",
        "Incomplete service configuration (missing target or webhook_url)", none⟩) :=
  (c7_amended_config_errors ⟨none⟩ "svc" (Json.obj [("text", Json.str "hi")])
    (.response 200) (.response 200)).2.2.2 (by rfl) ⟨none, some "u", none⟩ (Or.inl rfl)

/-- C8: when a mirror URL is configured, the mirror call POSTs the original
unmodified payload, no mirror outcome ever changes the returned
OutcomeResult or the HTTP response, and the mirror path never raises. -/
theorem c8_mirror_isolation :
    ∀ (g : GlobalConfig) (cfg : ServiceConfig) (sid : String) (payload : Json)
      (po mo mo' : HttpOutcome) (sw : String),
    cfg.slack_webhook = some sw → sw ≠ "" →
    (processWebhook g (some cfg) sid payload po mo =
      processWebhook g (some cfg) sid payload po mo')
    ∧ handleWebhook g (some cfg) sid payload po mo =
      handleWebhook g (some cfg) sid payload po mo'
    ∧ postToSlack g payload sw mo =
        ([OutboundCall.mirror sw payload (mirrorTimeout g)], none)
    ∧ (∀ (target url : String) (res : OutcomeResult) (calls : List OutboundCall),
        cfg.target = some target → target ≠ "" →
        cfg.webhook_url = some url → url ≠ "" →
        processWebhook g (some cfg) sid payload po mo = .ok (res, calls) →
        OutboundCall.mirror sw payload (mirrorTimeout g) ∈ calls) := by
  intro g cfg sid payload po mo mo' sw hsw hswne
  refine ⟨rfl, rfl, rfl, ?_⟩
  intro target url res calls ht htne hu hune hproc
  obtain ⟨subj, body, hex, hres, hcalls⟩ :=
    processWebhook_ok_inv g cfg sid payload po mo target url res calls
      ht htne hu hune hproc
  subst hcalls
  simp [hsw, hswne]

/-- Witness for C8 at a concrete config, payload and pair of mirror
outcomes. -/
theorem c8_witness :
    OutboundCall.mirror "m" (Json.obj [("text", Json.str "hi")])
        (mirrorTimeout ⟨none⟩) ∈
      [OutboundCall.primary "u" ⟨"hi", "grp_1", none⟩ 30,
        OutboundCall.mirror "m" (Json.obj [("text", Json.str "hi")]) 30] :=
  (c8_mirror_isolation ⟨none⟩ ⟨some "grp_1", some "u", some "m"⟩ "svc"
    (Json.obj [("text", Json.str "hi")]) (.response 200) (.response 200)
    .transportError "m" rfl (by decide)).2.2.2 "grp_1" "u"
    ⟨"success", "Webhook forwarded successfully", some 200⟩
    [OutboundCall.primary "u" ⟨"hi", "grp_1", none⟩ 30,
      OutboundCall.mirror "m" (Json.obj [("text", Json.str "hi")]) 30]
    rfl (by decide) rfl (by decide) (by rfl)

/-- C9 fails on the primary call's timeout: with the global timeout
configured to 5, the primary POST still carries the hardcoded timeout 30
(line 171 passes the literal `timeout=30`), while the mirror POST uses the
configured value 5 — so the primary timeout is not globally configurable as
claimed. -/
theorem c9_counterexample :
    processWebhook ⟨some 5⟩
        (some ⟨some "grp_1", some "https://glue.example", some "https://slack.example"⟩)
        "svc" (Json.obj [("text", Json.str "hi")]) (.response 200) (.response 200) =
      .ok (⟨"success", "Webhook forwarded successfully", some 200⟩,
        [OutboundCall.primary "https://glue.example" ⟨"hi", "grp_1", none⟩ 30,
          OutboundCall.mirror "https://slack.example"
            (Json.obj [("text", Json.str "hi")]) 5])
    ∧ (30 : Nat) ≠ 5 :=
  ⟨by rfl, by decide⟩

/-- C9 (amended): both outbound POSTs carry an explicit bounded timeout;
the mirror call's timeout defaults to 30 and is configurable via the global
`timeout_seconds`, while the primary call's timeout is the fixed constant
30; a timeout (transport failure) on the primary call is classified as
status=error. -/
theorem c9_amended_timeouts :
    (∀ (g : GlobalConfig) (cfg : ServiceConfig) (sid : String) (payload : Json)
        (po mo : HttpOutcome) (target url sw : String)
        (res : OutcomeResult) (calls : List OutboundCall),
      cfg.target = some target → target ≠ "" →
      cfg.webhook_url = some url → url ≠ "" →
      cfg.slack_webhook = some sw → sw ≠ "" →
      processWebhook g (some cfg) sid payload po mo = .ok (res, calls) →
      ∃ fp, calls = [OutboundCall.primary url fp 30,
        OutboundCall.mirror sw payload (mirrorTimeout g)])
    ∧ mirrorTimeout ⟨none⟩ = 30
    ∧ mirrorTimeout ⟨some 5⟩ = 5
    ∧ (classifyForward .transportError).status = "error" := by
  refine ⟨?_, rfl, rfl, rfl⟩
  intro g cfg sid payload po mo target url sw res calls ht htne hu hune hsw hswne hproc
  obtain ⟨subj, body, hex, hres, hcalls⟩ :=
    processWebhook_ok_inv g cfg sid payload po mo target url res calls
      ht htne hu hune hproc
  subst hcalls
  refine ⟨⟨convertSlackToMarkdown body, target,
    if subj = "" then none else some subj⟩, ?_⟩
  simp [hsw, hswne]

/-- Witness for the amended C9 at the global timeout 5. -/
theorem c9_witness :
    ∃ fp, [OutboundCall.primary "u" ⟨"hi", "grp_1", none⟩ 30,
        OutboundCall.mirror "m" (Json.obj [("text", Json.str "hi")]) 5] =
      [OutboundCall.primary "u" fp 30,
        OutboundCall.mirror "m" (Json.obj [("text", Json.str "hi")])
          (mirrorTimeout ⟨some 5⟩)] :=
  c9_amended_timeouts.1 ⟨some 5⟩ ⟨some "grp_1", some "u", some "m"⟩ "svc"
    (Json.obj [("text", Json.str "hi")]) (.response 200) (.response 200)
    "grp_1" "u" "m"
    ⟨"success", "Webhook forwarded successfully", some 200⟩
    [OutboundCall.primary "u" ⟨"hi", "grp_1", none⟩ 30,
      OutboundCall.mirror "m" (Json.obj [("text", Json.str "hi")]) 5]
    rfl (by decide) rfl (by decide) rfl (by decide) (by rfl)

/-- C10: a payload whose `text` field holds a non-string value, or whose
`attachments` is a non-empty sequence with a non-object first element,
makes the pipeline raise an uncaught exception (AttributeError), and the
route's catch-all answers HTTP 500 with "Internal server error" instead of
a 400 decode rejection. -/
theorem c10_type_confusion_500 :
    (∀ (g : GlobalConfig) (cfg : ServiceConfig) (sid : String)
        (fields : List (String × Json)) (po mo : HttpOutcome)
        (target url : String) (v : Json),
      cfg.target = some target → target ≠ "" →
      cfg.webhook_url = some url → url ≠ "" →
      lookupField fields "text" = some v → (∀ s, v ≠ Json.str s) →
      extractMessage (Json.obj fields) = .error .attributeError
      ∧ handleWebhook g (some cfg) sid (Json.obj fields) po mo =
          (500, ⟨"error", "Internal server error", none⟩))
    ∧ (∀ (g : GlobalConfig) (cfg : ServiceConfig) (sid : String)
        (fields : List (String × Json)) (po mo : HttpOutcome)
        (target url : String) (a : Json) (restA : List Json),
      cfg.target = some target → target ≠ "" →
      cfg.webhook_url = some url → url ≠ "" →
      lookupField fields "attachments" = some (Json.arr (a :: restA)) →
      (∀ afs, a ≠ Json.obj afs) →
      extractMessage (Json.obj fields) = .error .attributeError
      ∧ handleWebhook g (some cfg) sid (Json.obj fields) po mo =
          (500, ⟨"error", "Internal server error", none⟩)) := by
  constructor
  · intro g cfg sid fields po mo target url v ht htne hu hune hv hnstr
    have he := extract_error_nonstring_text fields v hv hnstr
    have htr := obj_truthy_of_lookup fields "text" v hv
    exact ⟨he, handleWebhook_500_of_error g (some cfg) sid (Json.obj fields) po mo
      .attributeError htr
      (processWebhook_error_of_extract g cfg sid (Json.obj fields) po mo target url
        .attributeError ht htne hu hune he)⟩
  · intro g cfg sid fields po mo target url a restA ht htne hu hune hatt hnobj
    have he := extract_error_nonobj_attachment fields a restA hatt hnobj
    have htr := obj_truthy_of_lookup fields "attachments" (Json.arr (a :: restA)) hatt
    exact ⟨he, handleWebhook_500_of_error g (some cfg) sid (Json.obj fields) po mo
      .attributeError htr
      (processWebhook_error_of_extract g cfg sid (Json.obj fields) po mo target url
        .attributeError ht htne hu hune he)⟩

/-- Witness for C10 at the payload `\x7b"text": 5\x7d`. -/
theorem c10_witness :
    extractMessage (Json.obj [("text", Json.num 5)]) = .error .attributeError
    ∧ handleWebhook ⟨none⟩ (some ⟨some "grp_1", some "u", none⟩) "svc"
        (Json.obj [("text", Json.num 5)]) (.response 200) (.response 200) =
      (500, ⟨"error", "Internal server error", none⟩) :=
  c10_type_confusion_500.1 ⟨none⟩ ⟨some "grp_1", some "u", none⟩ "svc"
    [("text", Json.num 5)] (.response 200) (.response 200) "grp_1" "u" (Json.num 5)
    rfl (by decide) rfl (by decide) rfl (fun s h => Json.noConfusion h)
